import Mathlib

/-!
Shallow embedding of the `claude_agent_sdk` OpenAI backend.

The embedding mirrors `src/claude_agent_sdk/_internal/openai_transport.py`
(the `OpenAITransport` class), `src/claude_agent_sdk/client.py`
(the `ClaudeSDKClient` class) and the relevant parts of
`src/claude_agent_sdk/types.py`.

Dynamic Python values are modelled by the inductive type `Val`; Python's
`None` is `Val.vnull`, dictionaries are association lists, and generic
objects carrying attributes (such as the SDK usage object) are `Val.vobj`.
Nondeterministic effects of the transport are passed as explicit arguments:
the environment lookup `os.getenv("OPENAI_API_KEY")`, the backend response
returned by the single `client.responses.create` network call, the fresh
`uuid.uuid4()` session identifier and the measured wall-clock duration.
Side effects that the specification talks about (backend-client
construction, network calls) are recorded in an explicit event list.
-/

/-- Python runtime value, as far as the SDK manipulates them. -/
inductive Val where
  | vnull : Val
  | vbool : Bool → Val
  | vint : Int → Val
  | vstr : String → Val
  | vlist : List Val → Val
  | vdict : List (String × Val) → Val
  | vobj : List (String × Val) → Val

/-- Python exceptions raised by the modelled code paths. -/
inductive PyError where
  | typeError (msg : String)
  | valueError (msg : String)
  | notImplementedError (msg : String)
  | parseError (msg : String)

/-- Observable side effects of the transport: constructing the backend
client handle (`AsyncOpenAI(**kwargs)`) and performing the one network call
(`client.responses.create(**request_payload)`). -/
inductive Event where
  | clientConstructed (client : Val)
  | networkCall (request : List (String × Val))

/-- Whether an event is a network call; used to state that a `generate`
call performs at most one network attempt and never retries. -/
def Event.isNet : Event → Bool
  | .networkCall _ => true
  | _ => false

/-- Python truthiness (`bool(v)`), as used by `if history:`, `if system_text:`,
`if not api_key:`, `if self._options.extra_headers:` and the like. -/
def truthy : Val → Bool
  | .vnull => false
  | .vbool b => b
  | .vint n => n != 0
  | .vstr s => !s.isEmpty
  | .vlist xs => !xs.isEmpty
  | .vdict fs => !fs.isEmpty
  | .vobj _ => true

/-- Python's short-circuiting `a or b` on values. -/
def pyOr (a b : Val) : Val :=
  if truthy a then a else b

/-- Whether a value is Python's `None`; models `v is None` checks. -/
def Val.isNull : Val → Bool
  | .vnull => true
  | _ => false

/-- Whether a value is a Python `str`; models `isinstance(v, str)`. -/
def Val.isStr : Val → Bool
  | .vstr _ => true
  | _ => false

/-- Python's `str(v)` conversion as used by `str(text)` and
`str(system_text)`. Scalar renderings are faithful; the rendering of
containers is abstracted, since the SDK only ever converts strings (and no
claim depends on the container rendering). -/
def pyStr : Val → String
  | .vnull => "None"
  | .vbool true => "True"
  | .vbool false => "False"
  | .vint n => toString n
  | .vstr s => s
  | .vlist _ => "<list>"
  | .vdict _ => "<dict>"
  | .vobj _ => "<object>"

/-- Python's `d.get(k)` on a dictionary value (`none` when `v` is not a
dictionary or the key is absent). -/
def dget (v : Val) (k : String) : Option Val :=
  match v with
  | .vdict fs => List.lookup k fs
  | _ => none

/-- Two-level dictionary access `v[k1][k2]`, convenient for stating record
shapes. -/
def dget2 (v : Val) (k1 k2 : String) : Option Val :=
  match dget v k1 with
  | some w => dget w k2
  | none => none

/-- Configuration options read by the transport
(`ClaudeAgentOptions` in `types.py`; only the fields the OpenAI backend
reads are modelled — the legacy Claude-specific options are ignored by every
modelled code path). Every optional field holds a `Val`, with `vnull`
standing for the dataclass default `None`; `extra_headers` defaults to the
empty dictionary and `openai_client` is the dependency-injection hook. -/
structure ClaudeAgentOptions where
  model : Val := .vnull
  openai_api_key : Val := .vnull
  openai_organization : Val := .vnull
  openai_project : Val := .vnull
  temperature : Val := .vnull
  max_output_tokens : Val := .vnull
  response_format : Val := .vnull
  openai_client : Val := .vnull
  system_prompt : Val := .vnull
  extra_headers : Val := .vdict []

/-- Content block variants from `types.py` (`TextBlock`, `ThinkingBlock`,
`ToolUseBlock`, `ToolResultBlock`). -/
inductive ContentBlock where
  | textBlock (text : String)
  | thinkingBlock (thinking : String) (signature : String)
  | toolUseBlock (id : String) (name : String) (input : Val)
  | toolResultBlock (tool_use_id : String) (content : Val) (is_error : Val)

/-- Typed message variants from `types.py` (`UserMessage`,
`AssistantMessage`, `SystemMessage`, `ResultMessage`). -/
inductive Message where
  | userMessage (content : Val) (parent_tool_use_id : Val)
  | assistantMessage (content : List ContentBlock) (model : Val)
      (parent_tool_use_id : Val)
  | systemMessage (subtype : Val) (data : Val)
  | resultMessage (subtype : Val) (duration_ms : Val) (duration_api_ms : Val)
      (is_error : Val) (num_turns : Val) (session_id : Val)
      (total_cost_usd : Val) (usage : Val) (result : Val)

/-- Backend response object returned by `client.responses.create`.
`output_text` models the convenience attribute (`vnull` covers both an
absent attribute and an attribute holding `None`, which the source treats
identically); `output` models `getattr(response, "output", None)`; `usage`
models `getattr(response, "usage", None)`. -/
structure Response where
  output_text : Val := .vnull
  output : Val := .vnull
  usage : Val := .vnull

/-- Elements produced by iterating a Python value with `for item in v`;
`none` models the `TypeError` raised on non-iterable values. Iterating a
string yields its one-character strings, iterating a dictionary yields its
keys. -/
def iterElems : Val → Option (List Val)
  | .vlist xs => some xs
  | .vstr s => some (s.toList.map (fun c => .vstr (String.singleton c)))
  | .vdict fs => some (fs.map (fun kv => .vstr kv.1))
  | _ => none

/-- Inner loop of `OpenAITransport._extract_text`: the text of one content
block, provided the block is a dictionary whose `type` is `"output_text"`
and whose `text` is a string. -/
def blockText (b : Val) : Option String :=
  match b with
  | .vdict fs =>
    match List.lookup "type" fs with
    | some (.vstr "output_text") =>
      match List.lookup "text" fs with
      | some (.vstr t) => some t
      | _ => none
    | _ => none
  | _ => none

/-- Outer loop body of `OpenAITransport._extract_text`: the first text found
in an output item's `content` list, provided the item is a dictionary whose
`content` is a list. -/
def itemText (item : Val) : Option String :=
  match item with
  | .vdict fs =>
    match List.lookup "content" fs with
    | some (.vlist blocks) => blocks.findSome? blockText
    | _ => none
  | _ => none

/-- Model of `OpenAITransport._extract_text` (source lines 144-163): return
the convenience field when present and non-`None`, otherwise scan the
output blocks for the first `output_text` segment, otherwise raise
`ValueError`. -/
def OpenAITransport.extract_text (r : Response) : Except PyError String :=
  if !r.output_text.isNull then
    .ok (pyStr r.output_text)
  else if truthy r.output then
    match iterElems r.output with
    | none => .error (.typeError "object is not iterable")
    | some items =>
      match items.findSome? itemText with
      | some t => .ok t
      | none => .error (.valueError "Unable to extract text from OpenAI response")
  else
    .error (.valueError "Unable to extract text from OpenAI response")

/-- Model of `OpenAITransport._extract_usage` (source lines 165-178):
falsy usage becomes `None`, a dictionary is returned verbatim, and any
other object is scraped for the three token-count attributes (an empty
scrape becomes `None`). Non-dictionary scalar values carry none of those
attributes. -/
def OpenAITransport.extract_usage (r : Response) : Val :=
  if !truthy r.usage then
    .vnull
  else
    match r.usage with
    | .vdict fs => .vdict fs
    | .vobj attrs =>
      let keys := ["input_tokens", "output_tokens", "total_tokens"]
      let fs := keys.filterMap (fun k => (List.lookup k attrs).map (fun v => (k, v)))
      if fs.isEmpty then .vnull else .vdict fs
    | _ => .vnull

/-- Resolution of `Options.system_prompt` to a system text
(source lines 101-105): a dictionary resolves to its `append` entry
(`None` when absent), anything else is used directly. -/
def systemText (sp : Val) : Val :=
  match sp with
  | .vdict fs => (List.lookup "append" fs).getD .vnull
  | v => v

/-- Normalization of `Options.response_format`
(source lines 133-137): a bare string becomes a `type` dictionary, any
other value passes through verbatim. -/
def normalizeResponseFormat : Val → Val
  | .vstr s => .vdict [("type", .vstr s)]
  | v => v

/-- Single text content segment, the wire shape
`[...]"type": "text", "text": t[...]` used for user and system entries. -/
def textSegment (t : String) : Val :=
  .vdict [("type", .vstr "text"), ("text", .vstr t)]

/-- User input entry appended for the new prompt (source lines 115-120). -/
def userEntry (p : String) : Val :=
  .vdict [("role", .vstr "user"), ("content", .vlist [textSegment p])]

/-- System input entry appended for a configured system prompt
(source lines 107-113). -/
def systemEntry (t : String) : Val :=
  .vdict [("role", .vstr "system"), ("content", .vlist [textSegment t])]

/-- Model of `OpenAITransport._build_request` (source lines 92-142). The
payload is an ordered association list, mirroring the insertion order of
the Python dictionary; optional fields are appended only under exactly the
conditions the source checks. -/
def OpenAITransport.build_request (opts : ClaudeAgentOptions) (prompt : String)
    (history : Option (List Val)) : List (String × Val) :=
  let model := pyOr opts.model (.vstr "gpt-5-codex")
  let base := history.getD []
  let stext := systemText opts.system_prompt
  let input := base
    ++ (if truthy stext then [systemEntry (pyStr stext)] else [])
    ++ [userEntry prompt]
  [("model", model), ("input", .vlist input)]
    ++ (if opts.temperature.isNull then [] else [("temperature", opts.temperature)])
    ++ (if opts.max_output_tokens.isNull then []
        else [("max_output_tokens", opts.max_output_tokens)])
    ++ (if opts.response_format.isNull then []
        else [("response_format", normalizeResponseFormat opts.response_format)])
    ++ (if truthy opts.extra_headers then [("extra_headers", opts.extra_headers)]
        else [])

/-- Model of `OpenAITransport._ensure_client` (source lines 70-90). The
cached client slot is initialized from `options.openai_client`; when it is
`None` the key is resolved with Python `or` from the explicit option and
the environment, a falsy result is a fatal `ValueError`, and otherwise an
`AsyncOpenAI` handle is constructed from the accumulated keyword
arguments (recorded as a `clientConstructed` event). -/
def OpenAITransport.ensure_client (cached : Val) (opts : ClaudeAgentOptions)
    (env_key : Val) : Except PyError (Val × List Event) :=
  if !cached.isNull then
    .ok (cached, [])
  else
    let api_key := pyOr opts.openai_api_key env_key
    if !truthy api_key then
      .error (.valueError
        "An OpenAI API key must be provided via ClaudeAgentOptions.openai_api_key or the OPENAI_API_KEY environment variable.")
    else
      let kwargs := [("api_key", api_key)]
        ++ (if truthy opts.openai_organization
            then [("organization", opts.openai_organization)] else [])
        ++ (if truthy opts.openai_project
            then [("project", opts.openai_project)] else [])
      .ok (.vobj kwargs, [.clientConstructed (.vobj kwargs)])

/-- Model of `OpenAITransport.generate` (source lines 21-63). The explicit
arguments stand for the ambient effects: `env_key` is
`os.getenv("OPENAI_API_KEY")`, `resp` is the backend response returned by
the single `client.responses.create` call, `session_id` is the fresh
`uuid.uuid4()` and `duration_ms` the measured duration. The result is the
list of records the async generator yields (the source yields both records
only after all fallible work has completed, so a raise yields no records)
paired with the emitted side-effect events. -/
def OpenAITransport.generate (opts : ClaudeAgentOptions) (env_key : Val)
    (resp : Response) (session_id : String) (duration_ms : Int)
    (prompt : Val) (history : Option (List Val)) :
    Except PyError (List Val) × List Event :=
  match prompt with
  | .vstr p =>
    match OpenAITransport.ensure_client opts.openai_client opts env_key with
    | .error e => (.error e, [])
    | .ok (_, ev1) =>
      let request := OpenAITransport.build_request opts p history
      let evs := ev1 ++ [.networkCall request]
      match OpenAITransport.extract_text resp with
      | .error e => (.error e, evs)
      | .ok text =>
        let usage := OpenAITransport.extract_usage resp
        let mdl := (List.lookup "model" request).getD (.vstr "")
        let assistant_message := Val.vdict
          [("type", .vstr "assistant"),
           ("message", .vdict
             [("role", .vstr "assistant"),
              ("model", mdl),
              ("content", .vlist [.vdict [("type", .vstr "text"), ("text", .vstr text)]])])]
        let result_message := Val.vdict
          [("type", .vstr "result"),
           ("subtype", .vstr "success"),
           ("duration_ms", .vint duration_ms),
           ("duration_api_ms", .vint duration_ms),
           ("is_error", .vbool false),
           ("num_turns", .vint 1),
           ("session_id", .vstr session_id),
           ("total_cost_usd", .vnull),
           ("usage", usage),
           ("result", .vstr text)]
        (.ok [assistant_message, result_message], evs)
  | _ => (.error (.typeError "OpenAITransport only supports string prompts"), [])

/-- Model of `OpenAITransport.stream` (source lines 65-68): a placeholder
that raises `NotImplementedError` for every input, yields no records and
performs no side effects. -/
def OpenAITransport.stream (prompts : Val) : Except PyError (List Val) × List Event :=
  (.error (.notImplementedError
    "Streaming prompts are not yet supported with OpenAI models"), [])

/-- Modelled from the spec: parsing of a content block into a typed
Content Block. The file `_internal/message_parser.py` is imported by the
repository but absent from src/; section 4.2 of the spec states that
assistant records carry text Content Blocks, so a dictionary block of type
`text` with a string `text` field becomes a `TextBlock`. -/
def parseContentBlock (b : Val) : Option ContentBlock :=
  match b with
  | .vdict fs =>
    match List.lookup "type" fs with
    | some (.vstr "text") =>
      match List.lookup "text" fs with
      | some (.vstr t) => some (.textBlock t)
      | _ => none
    | _ => none
  | _ => none

/-- Modelled from the spec: `parse_message` of the missing
`_internal/message_parser.py`. Section 4.2: "`parse(raw) → Typed Message`
... `assistant` records map to `AssistantMessage` carrying a single text
Content Block; `result` records map to `ResultMessage` carrying the full
accounting fields"; parsing is pure. Wire records that are not mappings,
assistant records without a mapping-shaped `message`, and unknown
discriminants (an open question in spec section 9, never produced by the
modelled transport) are parse errors. -/
def parse_message (raw : Val) : Except PyError Message :=
  match raw with
  | .vdict fs =>
    match List.lookup "type" fs with
    | some (.vstr "assistant") =>
      match List.lookup "message" fs with
      | some (.vdict ms) =>
        let mdl := (List.lookup "model" ms).getD .vnull
        let blocks :=
          match List.lookup "content" ms with
          | some (.vlist bs) => bs.filterMap parseContentBlock
          | _ => []
        .ok (.assistantMessage blocks mdl .vnull)
      | _ => .error (.parseError "assistant record without message mapping")
    | some (.vstr "result") =>
      let g := fun (k : String) => (List.lookup k fs).getD .vnull
      .ok (.resultMessage (g "subtype") (g "duration_ms") (g "duration_api_ms")
        (g "is_error") (g "num_turns") (g "session_id") (g "total_cost_usd")
        (g "usage") (g "result"))
    | _ => .error (.parseError "unknown message type")
  | _ => .error (.parseError "raw record is not a mapping")

/-- Conversation state owned by `ClaudeSDKClient`: the running history and
the most recent batch of typed messages (`self._history` and
`self._last_messages`). -/
structure ClientState where
  history : List Val
  last_messages : List Message

/-- Freshly constructed client state (`ClaudeSDKClient.__init__`,
source lines 16-24): empty history, empty last response. -/
def ClaudeSDKClient.init : ClientState :=
  ⟨[], []⟩

/-- History contribution of one raw record in
`ClaudeSDKClient._append_turn` (source lines 62-68): only records whose
`type` equals `"assistant"` and whose `message.content` is a list
contribute, and they contribute their content list verbatim. The source
would raise `AttributeError` on an assistant record whose `message` is not
a mapping, but on the query path `parse_message` has already rejected such
records, so that branch is unreachable and modelled as contributing
nothing. -/
def assistantHistEntry (raw : Val) : Option Val :=
  match raw with
  | .vdict fs =>
    match List.lookup "type" fs with
    | some (.vstr "assistant") =>
      match (List.lookup "message" fs).getD (.vdict []) with
      | .vdict ms =>
        match List.lookup "content" ms with
        | some (.vlist cs) =>
          some (.vdict [("role", .vstr "assistant"), ("content", .vlist cs)])
        | _ => none
      | _ => none
    | _ => none
  | _ => none

/-- Model of `ClaudeSDKClient._append_turn` (source lines 54-68): append
one user entry for the prompt, then one assistant entry per
assistant-typed raw record. -/
def ClaudeSDKClient.append_turn (hist : List Val) (prompt : String)
    (raw_messages : List Val) : List Val :=
  hist ++ [userEntry prompt] ++ raw_messages.filterMap assistantHistEntry

/-- Parsing loop of `ClaudeSDKClient.query` (source lines 41-43): each raw
record is parsed as it arrives and the first parse error propagates. -/
def parseAll : List Val → Except PyError (List Message)
  | [] => .ok []
  | r :: rs =>
    match parse_message r with
    | .error e => .error e
    | .ok m =>
      match parseAll rs with
      | .error e => .error e
      | .ok ms => .ok (m :: ms)

/-- Model of `ClaudeSDKClient.query` (source lines 32-46). The transport is
a function from the prompt and the history argument to the records its
generator yields followed by an optional raised error (the error, if any,
surfaces after the yielded records have been consumed and parsed). Client
state is threaded explicitly: the last-response slot and the history are
assigned only after the full record sequence has been consumed and parsed,
exactly as in the source, so every error path returns the state
unchanged. -/
def ClaudeSDKClient.query
    (gen : Val → List Val → List Val × Option PyError)
    (st : ClientState) (prompt : Val) : Except PyError Unit × ClientState :=
  match prompt with
  | .vstr p =>
    let out := gen (.vstr p) st.history
    match parseAll out.1 with
    | .error e => (.error e, st)
    | .ok responses =>
      match out.2 with
      | some e => (.error e, st)
      | none =>
        (.ok (), ⟨ClaudeSDKClient.append_turn st.history p out.1, responses⟩)
  | _ => (.error (.typeError "ClaudeSDKClient only supports string prompts"), st)

/-- Model of `ClaudeSDKClient.receive_response` (source lines 48-52): a
replay of the messages captured by the most recent query. -/
def ClaudeSDKClient.receive_response (st : ClientState) : List Message :=
  st.last_messages

/-- Model of `ClaudeSDKClient.disconnect` (source lines 70-73): clears the
last-response slot, retains the history. -/
def ClaudeSDKClient.disconnect (st : ClientState) : ClientState :=
  ⟨st.history, []⟩

/-! Concrete fixtures used by witnesses and counterexamples. -/

/-- Options with an injected backend client (the dependency-injection hook). -/
def optsInj : ClaudeAgentOptions := { openai_client := .vobj [] }

/-- Backend response carrying the convenience text field. -/
def respOk : Response := { output_text := .vstr "Hello from GPT" }

/-- Backend response with no convenience text and no text-typed output
segment. -/
def respNoText : Response :=
  { output := .vlist [.vdict [("content", .vlist [.vdict [("type", .vstr "reasoning")]])]] }

/-- Options whose system prompt is configured as the empty string. -/
def optsEmptySys : ClaudeAgentOptions := { system_prompt := .vstr "" }

/-- Options with the claude_code preset system prompt appending "X". -/
def optsPresetX : ClaudeAgentOptions :=
  { system_prompt := .vdict
      [("type", .vstr "preset"), ("preset", .vstr "claude_code"), ("append", .vstr "X")] }

/-- C6: invoking `OpenAITransport.stream` fails with the
`NotImplementedError` for every input, yields no record and performs no
side effect. -/
theorem stream_always_not_implemented (prompts : Val) :
    OpenAITransport.stream prompts
      = (.error (.notImplementedError
          "Streaming prompts are not yet supported with OpenAI models"), []) := rfl

/-- C4: for every non-string prompt, both `OpenAITransport.generate` and
`ClaudeSDKClient.query` raise a `TypeError` immediately: the transport
emits no events (no backend-client construction, no network call), the
client leaves its state untouched, and the result is the same for every
transport behaviour `gen`, so no input-dependent work happens before the
error. -/
theorem nonstring_prompt_type_error (opts : ClaudeAgentOptions) (env_key : Val)
    (resp : Response) (sid : String) (dur : Int) (hist : Option (List Val))
    (prompt : Val)
    (gen : Val → List Val → List Val × Option PyError) (st : ClientState)
    (h : prompt.isStr = false) :
    OpenAITransport.generate opts env_key resp sid dur prompt hist
      = (.error (.typeError "OpenAITransport only supports string prompts"), [])
    ∧ ClaudeSDKClient.query gen st prompt
      = (.error (.typeError "ClaudeSDKClient only supports string prompts"), st) := by
  cases prompt
  case vstr s => simp [Val.isStr] at h
  all_goals exact ⟨rfl, rfl⟩

/-- Witness for C4 at the concrete non-string prompt `7`. -/
theorem nonstring_prompt_type_error_witness :
    OpenAITransport.generate {} .vnull {} "sid" 0 (.vint 7) none
      = (.error (.typeError "OpenAITransport only supports string prompts"), [])
    ∧ ClaudeSDKClient.query (fun _ _ => ([], none)) ClaudeSDKClient.init (.vint 7)
      = (.error (.typeError "ClaudeSDKClient only supports string prompts"),
         ClaudeSDKClient.init) :=
  nonstring_prompt_type_error {} .vnull {} "sid" 0 none (.vint 7)
    (fun _ _ => ([], none)) ClaudeSDKClient.init rfl

/-- C5: with no injected client, no configured key and the environment
variable absent, `generate` fails with the configuration `ValueError` and
emits no events (no client construction, no network attempt); moreover the
Python `or` used for credential resolution takes the explicit option when
it is truthy and falls back to the environment otherwise. -/
theorem missing_api_key_config_error (opts : ClaudeAgentOptions) (resp : Response)
    (sid : String) (dur : Int) (p : String) (hist : Option (List Val))
    (hclient : opts.openai_client = .vnull)
    (hkey : opts.openai_api_key = .vnull) :
    OpenAITransport.generate opts .vnull resp sid dur (.vstr p) hist
      = (.error (.valueError
          "An OpenAI API key must be provided via ClaudeAgentOptions.openai_api_key or the OPENAI_API_KEY environment variable."), [])
    ∧ (∀ a e : Val, truthy a = true → pyOr a e = a)
    ∧ (∀ a e : Val, truthy a = false → pyOr a e = e) := by
  refine ⟨?_, ?_, ?_⟩
  · simp [OpenAITransport.generate, OpenAITransport.ensure_client, hclient, hkey,
      Val.isNull, pyOr, truthy]
  · intro a e ha; simp [pyOr, ha]
  · intro a e ha; simp [pyOr, ha]

/-- Witness for C5 at fully default options. -/
theorem missing_api_key_config_error_witness :
    OpenAITransport.generate {} .vnull {} "sid" 0 (.vstr "hello") none
      = (.error (.valueError
          "An OpenAI API key must be provided via ClaudeAgentOptions.openai_api_key or the OPENAI_API_KEY environment variable."), [])
    ∧ (∀ a e : Val, truthy a = true → pyOr a e = a)
    ∧ (∀ a e : Val, truthy a = false → pyOr a e = e) :=
  missing_api_key_config_error {} {} "sid" 0 "hello" none rfl rfl

/-- C2: the built request holds `temperature`, `max_output_tokens`,
`response_format` and `extra_headers` exactly when they are set in the
options, with unchanged values (a bare-string response format being
normalized to a `type` dictionary); when unset the key is absent from the
payload entirely, and the `model` field falls back to `"gpt-5-codex"`
whenever the configured model is not truthy — in particular whenever it is
unset. -/
theorem build_request_optional_fields (opts : ClaudeAgentOptions) (p : String)
    (hist : Option (List Val)) :
    List.lookup "model" (OpenAITransport.build_request opts p hist)
      = some (if truthy opts.model then opts.model else .vstr "gpt-5-codex")
    ∧ List.lookup "temperature" (OpenAITransport.build_request opts p hist)
      = (if opts.temperature.isNull then none else some opts.temperature)
    ∧ List.lookup "max_output_tokens" (OpenAITransport.build_request opts p hist)
      = (if opts.max_output_tokens.isNull then none else some opts.max_output_tokens)
    ∧ List.lookup "response_format" (OpenAITransport.build_request opts p hist)
      = (if opts.response_format.isNull then none
         else some (normalizeResponseFormat opts.response_format))
    ∧ List.lookup "extra_headers" (OpenAITransport.build_request opts p hist)
      = (if truthy opts.extra_headers then some opts.extra_headers else none) := by
  unfold OpenAITransport.build_request pyOr
  cases ht : opts.temperature.isNull <;> cases hm : opts.max_output_tokens.isNull <;>
    cases hr : opts.response_format.isNull <;> cases he : truthy opts.extra_headers <;>
    simp [ht, hm, hr, he, List.lookup]

/-- Counterexample to C8 as stated: the empty string is a configured
system prompt (it is not `None`), yet the built request's input list is
just the user entry — no system entry is present, because the source
guards the append with Python truthiness (`if system_text:`), not with a
configured-or-not check. -/
theorem system_prompt_configured_counterexample :
    optsEmptySys.system_prompt ≠ .vnull
    ∧ List.lookup "input" (OpenAITransport.build_request optsEmptySys "hi" none)
        = some (.vlist [userEntry "hi"])
    ∧ dget (userEntry "hi") "role" = some (.vstr "user")
    ∧ Val.vstr "user" ≠ Val.vstr "system" := by
  refine ⟨?_, rfl, rfl, ?_⟩
  · intro h
    exact Val.noConfusion h
  · intro h
    injection h with h
    exact absurd h (by decide)

/-- C8 (amended): whenever the configured system prompt resolves to a
truthy system text — a non-empty raw string, or a preset dictionary whose
`append` entry is present and truthy — the built request contains a system
input entry placed immediately before the final user entry, carrying the
resolved text; a resolved raw string is used directly as that text. -/
theorem build_request_system_entry (opts : ClaudeAgentOptions) (p : String)
    (hist : Option (List Val))
    (h : truthy (systemText opts.system_prompt) = true) :
    List.lookup "input" (OpenAITransport.build_request opts p hist)
      = some (.vlist (hist.getD []
          ++ [systemEntry (pyStr (systemText opts.system_prompt)), userEntry p]))
    ∧ (∀ s : String, systemText opts.system_prompt = .vstr s →
        systemEntry (pyStr (systemText opts.system_prompt)) = systemEntry s) := by
  constructor
  · simp [OpenAITransport.build_request, h, List.lookup]
  · intro s hs
    rw [hs]
    rfl

/-- Witness for C8 (amended): the claude_code preset with `append := "X"`
round-trips the fragment into the system entry immediately before the user
entry. -/
theorem build_request_system_entry_witness :
    List.lookup "input" (OpenAITransport.build_request optsPresetX "hi" none)
      = some (.vlist ((none : Option (List Val)).getD []
          ++ [systemEntry (pyStr (systemText optsPresetX.system_prompt)), userEntry "hi"]))
    ∧ (∀ s : String, systemText optsPresetX.system_prompt = .vstr s →
        systemEntry (pyStr (systemText optsPresetX.system_prompt)) = systemEntry s) :=
  build_request_system_entry optsPresetX "hi" none rfl

/-- Shape of the records of any successful `generate` call: exactly the
assistant record followed by the result record, sharing one text. -/
theorem generate_ok_shape (opts : ClaudeAgentOptions) (env_key : Val)
    (resp : Response) (sid : String) (dur : Int) (prompt : Val)
    (hist : Option (List Val)) (recs : List Val) (evs : List Event)
    (h : OpenAITransport.generate opts env_key resp sid dur prompt hist
          = (.ok recs, evs)) :
    ∃ a r t,
      recs = [a, r]
      ∧ dget a "type" = some (.vstr "assistant")
      ∧ dget2 a "message" "role" = some (.vstr "assistant")
      ∧ dget2 a "message" "model" = some (pyOr opts.model (.vstr "gpt-5-codex"))
      ∧ dget2 a "message" "content" = some (.vlist [textSegment t])
      ∧ dget r "type" = some (.vstr "result")
      ∧ dget r "num_turns" = some (.vint 1)
      ∧ dget r "is_error" = some (.vbool false)
      ∧ dget r "result" = some (.vstr t) := by
  cases prompt <;> simp only [OpenAITransport.generate] at h
  case vstr p =>
    cases hc : OpenAITransport.ensure_client opts.openai_client opts env_key with
    | error e =>
      rw [hc] at h
      simp at h
    | ok ce =>
      obtain ⟨c, ev1⟩ := ce
      rw [hc] at h
      cases ht : OpenAITransport.extract_text resp with
      | error e =>
        rw [ht] at h
        simp at h
      | ok text =>
        rw [ht] at h
        simp only [Prod.mk.injEq, Except.ok.injEq] at h
        obtain ⟨hrecs, _⟩ := h
        refine ⟨_, _, text, hrecs.symm, rfl, rfl, rfl, rfl, rfl, rfl, rfl, rfl⟩
  all_goals simp at h

/-- C1: every successful `generate` call yields exactly two raw records in
order — an `assistant` record with role `"assistant"`, the resolved model
name and a single text content segment, then a `result` record with turn
count `1` and `is_error` false whose `result` field carries exactly the
text of the assistant record's content segment. -/
theorem generate_two_records (opts : ClaudeAgentOptions) (env_key : Val)
    (resp : Response) (sid : String) (dur : Int) (prompt : Val)
    (hist : Option (List Val)) (recs : List Val) (evs : List Event)
    (h : OpenAITransport.generate opts env_key resp sid dur prompt hist
          = (.ok recs, evs)) :
    ∃ a r t,
      recs = [a, r]
      ∧ dget a "type" = some (.vstr "assistant")
      ∧ dget2 a "message" "role" = some (.vstr "assistant")
      ∧ dget2 a "message" "model" = some (pyOr opts.model (.vstr "gpt-5-codex"))
      ∧ dget2 a "message" "content" = some (.vlist [textSegment t])
      ∧ dget r "type" = some (.vstr "result")
      ∧ dget r "num_turns" = some (.vint 1)
      ∧ dget r "is_error" = some (.vbool false)
      ∧ dget r "result" = some (.vstr t) :=
  generate_ok_shape opts env_key resp sid dur prompt hist recs evs h

/-- Witness for C1: a concrete successful call with an injected client and
a convenience-text response. -/
theorem generate_two_records_witness :
    ∃ a r t,
      [Val.vdict
         [("type", .vstr "assistant"),
          ("message", .vdict
            [("role", .vstr "assistant"),
             ("model", .vstr "gpt-5-codex"),
             ("content", .vlist [textSegment "Hello from GPT"])])],
       Val.vdict
         [("type", .vstr "result"),
          ("subtype", .vstr "success"),
          ("duration_ms", .vint 5),
          ("duration_api_ms", .vint 5),
          ("is_error", .vbool false),
          ("num_turns", .vint 1),
          ("session_id", .vstr "sid"),
          ("total_cost_usd", .vnull),
          ("usage", .vnull),
          ("result", .vstr "Hello from GPT")]] = [a, r]
      ∧ dget a "type" = some (.vstr "assistant")
      ∧ dget2 a "message" "role" = some (.vstr "assistant")
      ∧ dget2 a "message" "model" = some (pyOr optsInj.model (.vstr "gpt-5-codex"))
      ∧ dget2 a "message" "content" = some (.vlist [textSegment t])
      ∧ dget r "type" = some (.vstr "result")
      ∧ dget r "num_turns" = some (.vint 1)
      ∧ dget r "is_error" = some (.vbool false)
      ∧ dget r "result" = some (.vstr t) :=
  generate_two_records optsInj .vnull respOk "sid" 5 (.vstr "hello") none _ _ rfl

/-- Whether the output-block scan of `_extract_text` finds a text-typed
segment in the response's `output` value. -/
def outputScanFindsText (output : Val) : Bool :=
  match iterElems output with
  | some items => (items.findSome? itemText).isSome
  | none => false

/-- Events of a successful `_ensure_client` never include a network call. -/
theorem ensure_client_no_network (cached : Val) (opts : ClaudeAgentOptions)
    (env_key : Val) (c : Val) (evc : List Event)
    (h : OpenAITransport.ensure_client cached opts env_key = .ok (c, evc)) :
    evc.countP (fun ev => Event.isNet ev) = 0 := by
  unfold OpenAITransport.ensure_client at h
  split at h
  · simp only [Except.ok.injEq, Prod.mk.injEq] at h
    rw [← h.2]
    rfl
  · cases hk : truthy (pyOr opts.openai_api_key env_key)
    · simp only [hk, Bool.not_false, if_true] at h
      exact Except.noConfusion h
    · simp only [hk, Bool.not_true, Bool.false_eq_true, if_false,
        Except.ok.injEq, Prod.mk.injEq] at h
      rw [← h.2]
      rfl

/-- C7: a `generate` call has no partial-success state — a successful call
yields exactly two records, and for every backend response that has
neither a non-null convenience text field nor an output block containing a
text-typed segment (the backend contract makes `output` either absent or a
list of blocks), the call fails with the extraction `ValueError`, yields
no records, and has performed exactly one network call (no retry). -/
theorem generate_extraction_error_no_partial :
    (∀ opts env_key resp sid dur prompt hist recs evs,
        OpenAITransport.generate opts env_key resp sid dur prompt hist
          = (.ok recs, evs) →
        recs.length = 2)
    ∧ (∀ (opts : ClaudeAgentOptions) (env_key : Val) (resp : Response)
        (sid : String) (dur : Int) (p : String) (hist : Option (List Val))
        (c : Val) (evc : List Event),
        OpenAITransport.ensure_client opts.openai_client opts env_key = .ok (c, evc) →
        resp.output_text = .vnull →
        (resp.output = .vnull ∨ ∃ items, resp.output = .vlist items) →
        outputScanFindsText resp.output = false →
        (OpenAITransport.generate opts env_key resp sid dur (.vstr p) hist).1
          = .error (.valueError "Unable to extract text from OpenAI response")
        ∧ ((OpenAITransport.generate opts env_key resp sid dur (.vstr p) hist).2.countP
            (fun ev => Event.isNet ev)) = 1) := by
  constructor
  · intro opts env_key resp sid dur prompt hist recs evs h
    obtain ⟨a, r, t, hrecs, -⟩ :=
      generate_ok_shape opts env_key resp sid dur prompt hist recs evs h
    rw [hrecs]
    rfl
  · intro opts env_key resp sid dur p hist c evc hc hnull hshape hscan
    have htext : OpenAITransport.extract_text resp
        = .error (.valueError "Unable to extract text from OpenAI response") := by
      unfold OpenAITransport.extract_text
      rcases hshape with hout | ⟨items, hout⟩
      · rw [hnull, hout]
        rfl
      · rw [hout] at hscan
        unfold outputScanFindsText at hscan
        simp only [iterElems] at hscan
        rw [hnull, hout]
        cases hfs : List.findSome? itemText items with
        | some t =>
          rw [hfs] at hscan
          simp at hscan
        | none =>
          cases hitems : items.isEmpty with
          | true =>
            rw [List.isEmpty_iff.mp hitems]
            rfl
          | false =>
            simp [truthy, hitems, iterElems, hfs, Val.isNull]
    refine ⟨?_, ?_⟩
    · simp only [OpenAITransport.generate, hc, htext]
    · simp only [OpenAITransport.generate, hc, htext]
      rw [List.countP_append]
      rw [ensure_client_no_network opts.openai_client opts env_key c evc hc]
      rfl

/-- Witness for C7 at an injected client and a response with neither a
convenience text nor a text-typed output segment. -/
theorem generate_extraction_error_witness :
    (OpenAITransport.generate optsInj .vnull respNoText "sid" 0 (.vstr "hi") none).1
      = .error (.valueError "Unable to extract text from OpenAI response")
    ∧ ((OpenAITransport.generate optsInj .vnull respNoText "sid" 0 (.vstr "hi") none).2.countP
        (fun ev => Event.isNet ev)) = 1 :=
  generate_extraction_error_no_partial.2 optsInj .vnull respNoText "sid" 0 "hi" none
    (.vobj []) [] rfl rfl (Or.inr ⟨_, rfl⟩) rfl

/-- Wire shape of an `assistant` raw record with a given model value and
content list (spec section 6; emitted by the transport and by the test
stub). -/
def assistantRaw (mdl : Val) (c : List Val) : Val :=
  .vdict [("type", .vstr "assistant"),
          ("message", .vdict
            [("role", .vstr "assistant"), ("model", mdl), ("content", .vlist c)])]

/-- Parsing an assistant raw record succeeds and keeps the model value and
the text blocks of the content list. -/
theorem parse_assistantRaw (mdl : Val) (c : List Val) :
    parse_message (assistantRaw mdl c)
      = .ok (.assistantMessage (c.filterMap parseContentBlock) mdl .vnull) := rfl

/-- Raw records that are not assistant-typed contribute no history
entry. -/
theorem assistantHistEntry_of_not_assistant (r : Val)
    (h : dget r "type" ≠ some (.vstr "assistant")) :
    assistantHistEntry r = none := by
  cases r <;> try rfl
  case vdict fs =>
    simp only [dget] at h
    simp only [assistantHistEntry]

/-- Assistant raw records contribute their content list verbatim as an
assistant history entry. -/
theorem assistantHistEntry_assistantRaw (mdl : Val) (c : List Val) :
    assistantHistEntry (assistantRaw mdl c)
      = some (.vdict [("role", .vstr "assistant"), ("content", .vlist c)]) := rfl

/-- A successful query only ever appends to the history. -/
theorem query_ok_history_append
    (gen : Val → List Val → List Val × Option PyError)
    (st : ClientState) (p : String) (st' : ClientState)
    (h : ClaudeSDKClient.query gen st (.vstr p) = (.ok (), st')) :
    ∃ tail, st'.history = st.history ++ tail := by
  simp only [ClaudeSDKClient.query] at h
  split at h
  · simp at h
  · split at h
    · simp at h
    · simp only [Prod.mk.injEq] at h
      refine ⟨[userEntry p]
        ++ ((gen (.vstr p) st.history).1.filterMap assistantHistEntry), ?_⟩
      rw [← h.2]
      simp [ClaudeSDKClient.append_turn]

/-- C3: the client's history is append-only and chronological, and it is
replayed verbatim as the history argument of the next generate call. After
a first successful submit whose reply is an assistant record (content list
`c`) followed by a non-assistant record, the state's history is exactly the
user entry for the prompt followed by one assistant entry holding `c`
verbatim (the non-assistant record contributes nothing); the next query
call depends on its transport only through the transport's value at that
exact history, which is what the source passes as the `history` keyword;
and every successful query extends the previous history purely by
appending. -/
theorem history_replay
    (gen : Val → List Val → List Val × Option PyError)
    (a b : String) (mdl : Val) (c : List Val) (r2 : Val) (st1 : ClientState)
    (hr2 : dget r2 "type" ≠ some (.vstr "assistant"))
    (hgen : gen (.vstr a) [] = ([assistantRaw mdl c, r2], none))
    (hq : ClaudeSDKClient.query gen ClaudeSDKClient.init (.vstr a) = (.ok (), st1)) :
    st1.history
      = [userEntry a, .vdict [("role", .vstr "assistant"), ("content", .vlist c)]]
    ∧ (∀ gen₂ : Val → List Val → List Val × Option PyError,
        gen₂ (.vstr b) st1.history = gen (.vstr b) st1.history →
        ClaudeSDKClient.query gen₂ st1 (.vstr b)
          = ClaudeSDKClient.query gen st1 (.vstr b))
    ∧ (∀ (gen' : Val → List Val → List Val × Option PyError) (st : ClientState)
        (p : String) (st' : ClientState),
        ClaudeSDKClient.query gen' st (.vstr p) = (.ok (), st') →
        ∃ tail, st'.history = st.history ++ tail) := by
  refine ⟨?_, ?_, ?_⟩
  · simp only [ClaudeSDKClient.query, ClaudeSDKClient.init] at hq
    rw [hgen] at hq
    simp only [parseAll, parse_assistantRaw] at hq
    cases hp : parse_message r2 with
    | error e =>
      rw [hp] at hq
      simp at hq
    | ok m =>
      rw [hp] at hq
      simp only [Prod.mk.injEq] at hq
      rw [← hq.2]
      simp [ClaudeSDKClient.append_turn, assistantHistEntry_assistantRaw,
        assistantHistEntry_of_not_assistant r2 hr2]
  · intro gen₂ heq
    simp only [ClaudeSDKClient.query]
    rw [heq]
  · intro gen' st p st' h
    exact query_ok_history_append gen' st p st' h

/-- Wire-shaped result record used as the second record of a stubbed
reply. -/
def resultRawW : Val :=
  .vdict [("type", .vstr "result"),
          ("subtype", .vstr "success"),
          ("duration_ms", .vint 10),
          ("duration_api_ms", .vint 10),
          ("is_error", .vbool false),
          ("num_turns", .vint 1),
          ("session_id", .vstr "test-session"),
          ("total_cost_usd", .vnull),
          ("usage", .vnull),
          ("result", .vstr "Hi there")]

/-- Stub transport that always replies with one assistant record carrying
the text "Hi there" and a result record. -/
def genW : Val → List Val → List Val × Option PyError :=
  fun _ _ => ([assistantRaw (.vstr "gpt-5-codex") [textSegment "Hi there"], resultRawW], none)

/-- Witness for C3: concrete two-turn scenario over the stub transport. -/
theorem history_replay_witness :
    ((ClaudeSDKClient.query genW ClaudeSDKClient.init (.vstr "A")).2).history
      = [userEntry "A",
         .vdict [("role", .vstr "assistant"), ("content", .vlist [textSegment "Hi there"])]]
    ∧ (∀ gen₂ : Val → List Val → List Val × Option PyError,
        gen₂ (.vstr "B") ((ClaudeSDKClient.query genW ClaudeSDKClient.init (.vstr "A")).2).history
          = genW (.vstr "B") ((ClaudeSDKClient.query genW ClaudeSDKClient.init (.vstr "A")).2).history →
        ClaudeSDKClient.query gen₂ (ClaudeSDKClient.query genW ClaudeSDKClient.init (.vstr "A")).2 (.vstr "B")
          = ClaudeSDKClient.query genW (ClaudeSDKClient.query genW ClaudeSDKClient.init (.vstr "A")).2 (.vstr "B"))
    ∧ (∀ (gen' : Val → List Val → List Val × Option PyError) (st : ClientState)
        (p : String) (st' : ClientState),
        ClaudeSDKClient.query gen' st (.vstr p) = (.ok (), st') →
        ∃ tail, st'.history = st.history ++ tail) :=
  history_replay genW "A" "B" (.vstr "gpt-5-codex") [textSegment "Hi there"]
    resultRawW (ClaudeSDKClient.query genW ClaudeSDKClient.init (.vstr "A")).2
    (by
      intro h
      rw [show dget resultRawW "type" = some (.vstr "result") from rfl] at h
      injection h with h
      injection h with h
      exact absurd h (by decide))
    rfl rfl

/-- C9 (part of the statement of `receive_response`): before any submit
the last response is the empty sequence, and after a successful query it
is exactly the typed messages parsed from that query's raw records — a
pure value, so every repeated read yields the same messages in the same
order without consuming them. -/
theorem receive_response_empty_then_capture :
    ClaudeSDKClient.receive_response ClaudeSDKClient.init = []
    ∧ (∀ (gen : Val → List Val → List Val × Option PyError) (st : ClientState)
        (prompt : Val) (st' : ClientState),
        ClaudeSDKClient.query gen st prompt = (.ok (), st') →
        ∃ msgs, parseAll (gen prompt st.history).1 = .ok msgs
          ∧ ClaudeSDKClient.receive_response st' = msgs) := by
  constructor
  · rfl
  · intro gen st prompt st' h
    cases prompt <;> simp only [ClaudeSDKClient.query] at h
    case vstr p =>
      split at h
      · simp at h
      · split at h
        · simp at h
        · rename_i msgs hpa _ _
          simp only [Prod.mk.injEq] at h
          refine ⟨msgs, hpa, ?_⟩
          rw [← h.2]
          rfl
    all_goals simp at h

/-- Witness for C9: the fresh client replays nothing, and after one
concrete query the captured messages are replayed. -/
theorem receive_response_witness :
    ClaudeSDKClient.receive_response ClaudeSDKClient.init = []
    ∧ ∃ msgs, parseAll (genW (.vstr "A") ClaudeSDKClient.init.history).1 = .ok msgs
        ∧ ClaudeSDKClient.receive_response
            (ClaudeSDKClient.query genW ClaudeSDKClient.init (.vstr "A")).2 = msgs :=
  ⟨receive_response_empty_then_capture.1,
   receive_response_empty_then_capture.2 genW ClaudeSDKClient.init (.vstr "A")
     (ClaudeSDKClient.query genW ClaudeSDKClient.init (.vstr "A")).2 rfl⟩

/-- C10: a query call is atomic with respect to the client state — if the
transport's generator or message parsing raises anywhere during the call,
both the history and the last-response slot are exactly as they were
before the call, because the source assigns them only after the full
record sequence has been consumed and parsed successfully. -/
theorem query_error_atomic
    (gen : Val → List Val → List Val × Option PyError)
    (st : ClientState) (prompt : Val) (e : PyError) (st' : ClientState)
    (h : ClaudeSDKClient.query gen st prompt = (.error e, st')) :
    st' = st := by
  cases prompt <;> simp only [ClaudeSDKClient.query] at h
  case vstr p =>
    split at h
    · simp only [Prod.mk.injEq] at h
      exact h.2.symm
    · split at h
      · simp only [Prod.mk.injEq] at h
        exact h.2.symm
      · simp at h
  all_goals simp only [Prod.mk.injEq] at h
  all_goals exact h.2.symm

/-- Stub transport whose generator raises after yielding nothing. -/
def genFail : Val → List Val → List Val × Option PyError :=
  fun _ _ => ([], some (.valueError "boom"))

/-- Client state with one prior turn, used to witness atomicity. -/
def st0 : ClientState := ⟨[userEntry "A"], []⟩

/-- Witness for C10: a concrete failing query leaves the concrete prior
state untouched. -/
theorem query_error_atomic_witness :
    (ClaudeSDKClient.query genFail st0 (.vstr "B")).2 = st0 :=
  query_error_atomic genFail st0 (.vstr "B") (.valueError "boom")
    (ClaudeSDKClient.query genFail st0 (.vstr "B")).2 rfl
